import Mathlib

/-!
Verification development for the kubeadm bootstrap orchestration core:
the deterministic configuration serializer, the multi-version configuration
loading pipeline, and the control-plane-prepare join phase tree.
-/

/-! ## Deterministic serializer (consistentOrderByteSlice)

Kind names and documents are byte sequences; the ordering on kind names is
the byte-wise lexicographic order, realised here as the lexicographic
linear order on lists of naturals.
-/

/-- Raw bytes of one configuration document. -/
abbrev Doc := List Nat

/-- A declared kind name, as its byte sequence. -/
abbrev KindName := List Nat

/-- Bytes of an ASCII string (for ASCII text, code points and bytes agree). -/
def strBytes (s : String) : List Nat := s.toList.map Char.toNat

/-- Ordering of serializer entries: byte-wise lexicographic comparison of
their kind names. -/
def entryLe (a b : KindName × Doc) : Prop := a.1 ≤ b.1

instance : DecidableRel entryLe := fun a b => inferInstanceAs (Decidable (a.1 ≤ b.1))

instance : IsTotal (KindName × Doc) entryLe := ⟨fun a b => le_total a.1 b.1⟩

instance : IsTrans (KindName × Doc) entryLe := ⟨fun _ _ _ h h' => le_trans h h'⟩

/-- Modelled from the spec: the deterministic serializer
(consistentOrderByteSlice, whose implementation is not part of the analysed
sources; only its test is). Given the entries of a kind-name-to-document
map, it emits the documents sorted by byte-wise lexicographic comparison of
their kind names. The finite map is represented by its entry list; absence
of a defined iteration order is captured by quantifying over permutations
of that list. -/
def consistentOrderByteSlice (m : List (KindName × Doc)) : List Doc :=
  (List.insertionSort entryLe m).map Prod.snd

/-- The kind name of the first document of the serializer test triple. -/
def aKind : KindName := strBytes "Akind"

/-- The bytes of the document whose kind is Akind. -/
def aFile : Doc := strBytes "\nkind: Akind\napiVersion: foo.k8s.io/v1\n"

/-- The kind name of the second document of the serializer test triple. -/
def aaKind : KindName := strBytes "Aakind"

/-- The bytes of the document whose kind is Aakind. -/
def aaFile : Doc := strBytes "\nkind: Aakind\napiVersion: foo.k8s.io/v1\n"

/-- The kind name of the third document of the serializer test triple. -/
def abKind : KindName := strBytes "Abkind"

/-- The bytes of the document whose kind is Abkind. -/
def abFile : Doc := strBytes "\nkind: Abkind\napiVersion: foo.k8s.io/v1\n"

/-- The three-kind map used by the serializer determinism test, in one
particular entry order. -/
def exampleKindMap : List (KindName × Doc) :=
  [(aaKind, aaFile), (abKind, abFile), (aKind, aFile)]

/-- Sorting the entries of a duplicate-free map is insensitive to the order
in which the entries are listed: any two permutations sort to the same
entry list. -/
theorem insertionSort_entryLe_eq_of_perm {m₁ m₂ : List (KindName × Doc)}
    (nd : (m₁.map Prod.fst).Nodup) (h : m₁.Perm m₂) :
    List.insertionSort entryLe m₁ = List.insertionSort entryLe m₂ := by
  have hs₁ : (List.insertionSort entryLe m₁).Perm m₁ := List.perm_insertionSort _ _
  have hs₂ : (List.insertionSort entryLe m₂).Perm m₂ := List.perm_insertionSort _ _
  have hperm : (List.insertionSort entryLe m₁).Perm (List.insertionSort entryLe m₂) :=
    (hs₁.trans h).trans hs₂.symm
  have nd₁ : ((List.insertionSort entryLe m₁).map Prod.fst).Nodup :=
    ((hs₁.map Prod.fst).symm.nodup_iff).mp nd
  have sorted₁ : (List.insertionSort entryLe m₁).Sorted entryLe :=
    List.sorted_insertionSort _ _
  have sorted₂ : (List.insertionSort entryLe m₂).Sorted entryLe :=
    List.sorted_insertionSort _ _
  have nd₂ : ((List.insertionSort entryLe m₂).map Prod.fst).Nodup :=
    ((hs₂.map Prod.fst).symm.nodup_iff).mp (((h.map Prod.fst).nodup_iff).mp nd)
  -- upgrade the sortedness to the strict key order, which is antisymmetric
  have strict : ∀ {l : List (KindName × Doc)}, l.Sorted entryLe →
      (l.map Prod.fst).Nodup → l.Pairwise (fun a b => a.1 < b.1) := by
    intro l hle hnd
    have hne : l.Pairwise (fun a b : KindName × Doc => a.1 ≠ b.1) :=
      (List.pairwise_map).mp hnd
    exact (hle.and hne).imp (fun hab => lt_of_le_of_ne hab.1 hab.2)
  haveI : IsAntisymm (KindName × Doc) (fun a b => a.1 < b.1) :=
    ⟨fun a b hab hba => absurd hba (lt_asymm hab)⟩
  exact List.eq_of_perm_of_sorted hperm (strict sorted₁ nd₁) (strict sorted₂ nd₂)

/-- C1: the deterministic serializer returns the documents sorted by the
byte-wise lexicographic order of their kind names, and its output depends
only on the key-value pairs of the map, never on the order the entries were
inserted in; in particular the kinds Aakind, Abkind, Akind always come out
in exactly that order. -/
theorem consistentOrderByteSlice_deterministic_and_sorted :
    (∀ m₁ m₂ : List (KindName × Doc), (m₁.map Prod.fst).Nodup → m₁.Perm m₂ →
      consistentOrderByteSlice m₁ = consistentOrderByteSlice m₂)
  ∧ (∀ m : List (KindName × Doc), ∃ m', m.Perm m' ∧ m'.Sorted entryLe ∧
      consistentOrderByteSlice m = m'.map Prod.snd)
  ∧ (∀ m : List (KindName × Doc), m.Perm exampleKindMap →
      consistentOrderByteSlice m = [aaFile, abFile, aFile]) := by
  refine ⟨fun m₁ m₂ nd h => ?_, fun m => ?_, fun m hm => ?_⟩
  · unfold consistentOrderByteSlice
    rw [insertionSort_entryLe_eq_of_perm nd h]
  · exact ⟨List.insertionSort entryLe m, (List.perm_insertionSort _ _).symm,
      List.sorted_insertionSort _ _, rfl⟩
  · have base : consistentOrderByteSlice exampleKindMap = [aaFile, abFile, aFile] := by decide
    have nd : (exampleKindMap.map Prod.fst).Nodup := by decide
    have h : consistentOrderByteSlice exampleKindMap = consistentOrderByteSlice m := by
      unfold consistentOrderByteSlice
      rw [insertionSort_entryLe_eq_of_perm nd hm.symm]
    rw [← h, base]

/-- Witness: the serializer applied to a concrete insertion order of the
three-kind test map yields the documents in the order Aakind, Abkind,
Akind. -/
theorem consistentOrderByteSlice_deterministic_and_sorted_witness :
    consistentOrderByteSlice [(aKind, aFile), (abKind, abFile), (aaKind, aaFile)] =
      [aaFile, abFile, aFile] :=
  consistentOrderByteSlice_deterministic_and_sorted.2.2 _ (by decide)

/-! ## Control-plane-prepare join phases

Shallow embedding of cmd/kubeadm/app/cmd/phases/join/controlplaneprepare.go.
External collaborators (PKI generation, kubeconfig writing, manifest
rendering, certificate download, client construction) are passed in as an
explicit record of oracles, and every run function additionally returns the
trace of collaborator calls it performed, so that the claims about skipped
work are statable. A run function returning none models a nil Go error;
some msg models a non-nil error with that message.
-/

/-- An API endpoint: an advertise address and a bind port. -/
structure APIEndpoint where
  advertiseAddress : String
  bindPort : Nat
deriving DecidableEq

/-- The control-plane section of a join configuration; its presence marks
the joining node as a control-plane node. -/
structure JoinControlPlane where
  localAPIEndpoint : APIEndpoint
deriving DecidableEq

/-- The join configuration returned by JoinData.Cfg, reduced to the field
the control-plane-prepare phases read: the optional ControlPlane section
(nil in Go is none here). -/
structure JoinConfiguration where
  controlPlane : Option JoinControlPlane
deriving DecidableEq

/-- Node registration options of the internal InitConfiguration. -/
structure NodeRegistrationOptions where
  name : String
  criSocket : String
deriving DecidableEq

/-- The internal cluster-wide configuration section. -/
structure ClusterConfiguration where
  kubernetesVersion : String
  clusterName : String
  controlPlaneEndpoint : String
  componentConfigs : List (String × String)
deriving DecidableEq

/-- The internal InitConfiguration aggregate: per-node section plus the
embedded cluster-wide section. -/
structure InitConfiguration where
  localAPIEndpoint : APIEndpoint
  nodeRegistration : NodeRegistrationOptions
  clusterConfiguration : ClusterConfiguration
deriving DecidableEq

/-- A kubeconfig handed to the client factory. -/
structure KubeConfig where
  server : String
deriving DecidableEq

/-- A clientset produced by the client factory. -/
structure ClientSet where
  fromConfig : KubeConfig
deriving DecidableEq

/-- The JoinData capability: the accessors of the join run context that the
control-plane-prepare run functions use. Fallible accessors return Except. -/
structure JoinData where
  cfg : JoinConfiguration
  certificateKey : String
  initCfg : Except String InitConfiguration
  tlsBootstrapCfg : Except String KubeConfig

/-- The run context handed to a phase run function: either a value
satisfying the JoinData capability, or anything else (on which the Go type
assertion c.(JoinData) fails). -/
inductive RunData where
  | join (d : JoinData)
  | other

/-- One collaborator invocation, recorded in a run function's trace. -/
inductive Call where
  | initCfg
  | tlsBootstrapCfg
  | toClientSet
  | createPKIAssets
  | createJoinControlPlaneKubeConfigFiles
  | createInitStaticPodManifestFiles
  | downloadCerts
deriving DecidableEq

/-- The external collaborators invoked by the control-plane-prepare run
functions, as black-box oracles returning nil (none) or an error message. -/
structure Collaborators where
  createPKIAssets : InitConfiguration → Option String
  createJoinControlPlaneKubeConfigFiles : String → InitConfiguration → Option String
  createInitStaticPodManifestFiles : String → InitConfiguration → Option String
  downloadCerts : ClientSet → InitConfiguration → String → Option String
  toClientSet : KubeConfig → Except String ClientSet

/-- Directory for static pod manifests (kubeadmconstants.GetStaticPodDirectory). -/
def getStaticPodDirectory : String := "/etc/kubernetes/manifests"

/-- The kubernetes configuration directory (kubeadmconstants.KubernetesDir). -/
def kubernetesDir : String := "/etc/kubernetes"

/-- The result of one run function: the returned error (none for nil) and
the trace of collaborator calls made. -/
abbrev RunResult := Option String × List Call

/-- Embedding of bootstrapClient: obtain the TLS bootstrap kubeconfig from
the join data and turn it into a clientset, wrapping either failure. -/
def bootstrapClient (env : Collaborators) (data : JoinData) :
    Except String ClientSet × List Call :=
  match data.tlsBootstrapCfg with
  | .error e => (.error ("unable to access the cluster: " ++ e), [.tlsBootstrapCfg])
  | .ok tlsCfg =>
    match env.toClientSet tlsCfg with
    | .error e => (.error ("unable to access the cluster: " ++ e), [.tlsBootstrapCfg, .toClientSet])
    | .ok client => (.ok client, [.tlsBootstrapCfg, .toClientSet])

/-- Embedding of runControlPlanePrepareManifestsSubphase. -/
def runControlPlanePrepareManifestsSubphase (env : Collaborators) (c : RunData) : RunResult :=
  match c with
  | .other => (some "control-plane-prepare phase invoked with an invalid data struct", [])
  | .join data =>
    match data.cfg.controlPlane with
    | none => (none, [])
    | some _ =>
      match data.initCfg with
      | .error e => (some e, [.initCfg])
      | .ok cfg =>
        (env.createInitStaticPodManifestFiles getStaticPodDirectory cfg,
          [.initCfg, .createInitStaticPodManifestFiles])

/-- Embedding of runControlPlanePrepareDownloadCertsPhaseLocal. -/
def runControlPlanePrepareDownloadCertsPhaseLocal (env : Collaborators) (c : RunData) :
    RunResult :=
  match c with
  | .other => (some "download-certs phase invoked with an invalid data struct", [])
  | .join data =>
    if data.cfg.controlPlane.isNone || data.certificateKey.length == 0 then
      (none, [])
    else
      match data.initCfg with
      | .error e => (some e, [.initCfg])
      | .ok cfg =>
        match bootstrapClient env data with
        | (.error e, tr) => (some e, .initCfg :: tr)
        | (.ok client, tr) =>
          match env.downloadCerts client cfg data.certificateKey with
          | some e => (some ("error downloading certs: " ++ e), .initCfg :: tr ++ [.downloadCerts])
          | none => (none, .initCfg :: tr ++ [.downloadCerts])

/-- Embedding of runControlPlanePrepareCertsPhaseLocal. -/
def runControlPlanePrepareCertsPhaseLocal (env : Collaborators) (c : RunData) : RunResult :=
  match c with
  | .other => (some "control-plane-prepare phase invoked with an invalid data struct", [])
  | .join data =>
    match data.cfg.controlPlane with
    | none => (none, [])
    | some _ =>
      match data.initCfg with
      | .error e => (some e, [.initCfg])
      | .ok cfg => (env.createPKIAssets cfg, [.initCfg, .createPKIAssets])

/-- Embedding of runControlPlanePrepareKubeconfigPhaseLocal. -/
def runControlPlanePrepareKubeconfigPhaseLocal (env : Collaborators) (c : RunData) : RunResult :=
  match c with
  | .other => (some "control-plane-prepare phase invoked with an invalid data struct", [])
  | .join data =>
    match data.cfg.controlPlane with
    | none => (none, [])
    | some _ =>
      match data.initCfg with
      | .error e => (some e, [.initCfg])
      | .ok cfg =>
        match env.createJoinControlPlaneKubeConfigFiles kubernetesDir cfg with
        | some e => (some ("error generating kubeconfig files: " ++ e),
            [.initCfg, .createJoinControlPlaneKubeConfigFiles])
        | none => (none, [.initCfg, .createJoinControlPlaneKubeConfigFiles])

/-- A node of the kubeadm workflow phase tree (the fields of workflow.Phase
used by controlplaneprepare.go). -/
inductive Phase where
  | mk (name short long : String)
       (run : Option (Collaborators → RunData → RunResult))
       (inheritFlags : List String)
       (runAllSiblings : Bool)
       (phases : List Phase)

/-- The name of a phase. -/
def Phase.name : Phase → String
  | .mk n _ _ _ _ _ _ => n

/-- The short description of a phase. -/
def Phase.short : Phase → String
  | .mk _ s _ _ _ _ _ => s

/-- The run function of a phase, if any. -/
def Phase.run : Phase → Option (Collaborators → RunData → RunResult)
  | .mk _ _ _ r _ _ _ => r

/-- The flags a phase declares it consumes. -/
def Phase.inheritFlags : Phase → List String
  | .mk _ _ _ _ f _ _ => f

/-- Whether selecting this phase runs all its siblings instead. -/
def Phase.runAllSiblings : Phase → Bool
  | .mk _ _ _ _ _ b _ => b

/-- The child phases of a phase. -/
def Phase.phases : Phase → List Phase
  | .mk _ _ _ _ _ _ ps => ps

/-- All nodes of a phase tree down to the given depth (fuel-bounded
depth-first collection; fuel at least the tree height collects every node). -/
def Phase.nodesUpTo : Nat → Phase → List Phase
  | 0, _ => []
  | n + 1, p => p :: (p.phases.map (Phase.nodesUpTo n)).flatten

/-- Flag name constants from cmd/kubeadm/app/cmd/options used by this file.
Only their pairwise distinctness matters to the claims. -/
def optionAPIServerAdvertiseAddress : String := "apiserver-advertise-address"

/-- Flag name constant options.APIServerBindPort. -/
def optionAPIServerBindPort : String := "apiserver-bind-port"

/-- Flag name constant options.CfgPath. -/
def optionCfgPath : String := "config"

/-- Flag name constant options.ControlPlane. -/
def optionControlPlane : String := "experimental-control-plane"

/-- Flag name constant options.NodeName. -/
def optionNodeName : String := "node-name"

/-- Flag name constant options.TokenDiscovery. -/
def optionTokenDiscovery : String := "discovery-token"

/-- Flag name constant options.TokenDiscoveryCAHash. -/
def optionTokenDiscoveryCAHash : String := "discovery-token-ca-cert-hash"

/-- Flag name constant options.TokenDiscoverySkipCAHash. -/
def optionTokenDiscoverySkipCAHash : String := "discovery-token-unsafe-skip-ca-verification"

/-- Flag name constant options.CertificateKey. -/
def optionCertificateKey : String := "certificate-key"

/-- Embedding of getControlPlanePreparePhaseFlags. -/
def getControlPlanePreparePhaseFlags : List String :=
  [optionAPIServerAdvertiseAddress,
   optionAPIServerBindPort,
   optionCfgPath,
   optionControlPlane,
   optionNodeName,
   optionTokenDiscovery,
   optionTokenDiscoveryCAHash,
   optionTokenDiscoverySkipCAHash,
   optionCertificateKey]

/-- Embedding of newControlPlanePrepareDownloadCertsSubphase. -/
def newControlPlanePrepareDownloadCertsSubphase : Phase :=
  .mk "download-certs"
      "Download certificates from kubeadm-certs"
      "macro command long description"
      (some runControlPlanePrepareDownloadCertsPhaseLocal)
      [optionCfgPath, optionCertificateKey]
      false
      []

/-- Embedding of newControlPlanePrepareCertsSubphase. -/
def newControlPlanePrepareCertsSubphase : Phase :=
  .mk "certs"
      "Generates the certificates for the new control plane components"
      ""
      (some runControlPlanePrepareCertsPhaseLocal)
      getControlPlanePreparePhaseFlags
      false
      []

/-- Embedding of newControlPlanePrepareKubeconfigSubphase. -/
def newControlPlanePrepareKubeconfigSubphase : Phase :=
  .mk "kubeconfig"
      "Generates the kubeconfig for the new control plane components"
      ""
      (some runControlPlanePrepareKubeconfigPhaseLocal)
      getControlPlanePreparePhaseFlags
      false
      []

/-- Embedding of newControlPlanePrepareManifestsSubphases. -/
def newControlPlanePrepareManifestsSubphases : Phase :=
  .mk "manifests"
      "Generates the manifests for the new control plane components"
      ""
      (some runControlPlanePrepareManifestsSubphase)
      getControlPlanePreparePhaseFlags
      false
      []

/-- Embedding of NewControlPlanePreparePhase: the control-plane-prepare
phase tree, a run-function-free root with five children of which the first
is the run-all-siblings aggregator. -/
def NewControlPlanePreparePhase : Phase :=
  .mk "control-plane-prepare"
      "Prepares the machine for serving a control plane."
      ""
      none
      []
      false
      [.mk "all"
           "Prepares the machine for serving a control plane."
           ""
           none
           getControlPlanePreparePhaseFlags
           true
           [],
       newControlPlanePrepareDownloadCertsSubphase,
       newControlPlanePrepareCertsSubphase,
       newControlPlanePrepareKubeconfigSubphase,
       newControlPlanePrepareManifestsSubphases]

/-- A sample internal configuration used by concrete witnesses. -/
def sampleInitConfiguration : InitConfiguration :=
  ⟨⟨"192.168.2.2", 6443⟩, ⟨"master-1", "/var/run/dockershim.sock"⟩,
   ⟨"v1.13.0", "kubernetes", "", []⟩⟩

/-- Collaborator oracles that always succeed, used by concrete witnesses. -/
def noopCollaborators : Collaborators :=
  ⟨fun _ => none, fun _ _ => none, fun _ _ => none, fun _ _ _ => none,
   fun c => .ok ⟨c⟩⟩

/-- Join data for a worker node: no ControlPlane section, no certificate key. -/
def workerJoinData : JoinData :=
  ⟨⟨none⟩, "", .ok sampleInitConfiguration, .ok ⟨"https://10.0.0.1:6443"⟩⟩

/-- Join data for a control-plane node that supplied no certificate key. -/
def controlPlaneJoinDataNoKey : JoinData :=
  ⟨⟨some ⟨⟨"192.168.2.2", 6443⟩⟩⟩, "", .ok sampleInitConfiguration,
   .ok ⟨"https://10.0.0.1:6443"⟩⟩

/-- C5: every control-plane-prepare subphase run function, handed a valid
JoinData whose ControlPlane section is nil, returns nil (a no-op skip) and
performs no collaborator call at all. -/
theorem controlPlanePrepare_skip_when_not_controlPlane (env : Collaborators)
    (d : JoinData) (h : d.cfg.controlPlane = none) :
    runControlPlanePrepareCertsPhaseLocal env (.join d) = (none, [])
  ∧ runControlPlanePrepareKubeconfigPhaseLocal env (.join d) = (none, [])
  ∧ runControlPlanePrepareManifestsSubphase env (.join d) = (none, [])
  ∧ runControlPlanePrepareDownloadCertsPhaseLocal env (.join d) = (none, []) := by
  refine ⟨?_, ?_, ?_, ?_⟩
  · simp [runControlPlanePrepareCertsPhaseLocal, h]
  · simp [runControlPlanePrepareKubeconfigPhaseLocal, h]
  · simp [runControlPlanePrepareManifestsSubphase, h]
  · simp [runControlPlanePrepareDownloadCertsPhaseLocal, h]

/-- Witness: on a concrete worker-node join context all four subphase run
functions return nil with an empty collaborator trace. -/
theorem controlPlanePrepare_skip_when_not_controlPlane_witness :
    runControlPlanePrepareCertsPhaseLocal noopCollaborators (.join workerJoinData) = (none, [])
  ∧ runControlPlanePrepareKubeconfigPhaseLocal noopCollaborators (.join workerJoinData) = (none, [])
  ∧ runControlPlanePrepareManifestsSubphase noopCollaborators (.join workerJoinData) = (none, [])
  ∧ runControlPlanePrepareDownloadCertsPhaseLocal noopCollaborators (.join workerJoinData) =
      (none, []) :=
  controlPlanePrepare_skip_when_not_controlPlane noopCollaborators workerJoinData rfl

/-- C6: every control-plane-prepare subphase run function, handed a run
context that does not satisfy the JoinData capability, fails fast with the
invalid-data-struct error and performs no collaborator call and no other
action. -/
theorem controlPlanePrepare_invalid_context (env : Collaborators) :
    runControlPlanePrepareCertsPhaseLocal env .other =
      (some "control-plane-prepare phase invoked with an invalid data struct", [])
  ∧ runControlPlanePrepareKubeconfigPhaseLocal env .other =
      (some "control-plane-prepare phase invoked with an invalid data struct", [])
  ∧ runControlPlanePrepareManifestsSubphase env .other =
      (some "control-plane-prepare phase invoked with an invalid data struct", [])
  ∧ runControlPlanePrepareDownloadCertsPhaseLocal env .other =
      (some "download-certs phase invoked with an invalid data struct", []) :=
  ⟨rfl, rfl, rfl, rfl⟩

/-- C7: in the control-plane-prepare phase tree, every node that sets
runAllSiblings has no run function, the root has no run function, and the
children of the root are leaves (so depth 3 collects every node of the
tree). -/
theorem controlPlanePrepare_aggregator_nodes :
    (∀ p ∈ Phase.nodesUpTo 3 NewControlPlanePreparePhase,
        p.runAllSiblings = true → p.run = none)
  ∧ NewControlPlanePreparePhase.run = none
  ∧ (∀ p ∈ NewControlPlanePreparePhase.phases, p.phases = []) := by
  refine ⟨?_, rfl, ?_⟩
  · intro p hp
    simp only [Phase.nodesUpTo, NewControlPlanePreparePhase,
      newControlPlanePrepareDownloadCertsSubphase, newControlPlanePrepareCertsSubphase,
      newControlPlanePrepareKubeconfigSubphase, newControlPlanePrepareManifestsSubphases,
      Phase.phases, List.map, List.flatten, List.mem_cons, List.not_mem_nil,
      List.cons_append, List.nil_append, or_false] at hp
    rcases hp with h | h | h | h | h | h <;> subst h <;> simp [Phase.runAllSiblings, Phase.run]
  · intro p hp
    simp only [NewControlPlanePreparePhase, Phase.phases,
      newControlPlanePrepareDownloadCertsSubphase, newControlPlanePrepareCertsSubphase,
      newControlPlanePrepareKubeconfigSubphase, newControlPlanePrepareManifestsSubphases,
      List.mem_cons, List.not_mem_nil, or_false] at hp
    rcases hp with h | h | h | h | h <;> subst h <;> rfl

/-- Witness: the all aggregator node is in the tree, sets runAllSiblings,
and indeed has no run function. -/
theorem controlPlanePrepare_aggregator_nodes_witness :
    (Phase.mk "all" "Prepares the machine for serving a control plane." ""
      none getControlPlanePreparePhaseFlags true []).run = none :=
  controlPlanePrepare_aggregator_nodes.1
    (Phase.mk "all" "Prepares the machine for serving a control plane." ""
      none getControlPlanePreparePhaseFlags true [])
    (by simp [Phase.nodesUpTo, NewControlPlanePreparePhase, Phase.phases])
    rfl

/-- C8: the five children of the control-plane-prepare root carry the names
all, download-certs, certs, kubeconfig, manifests, which are pairwise
distinct. -/
theorem controlPlanePrepare_child_names_unique :
    NewControlPlanePreparePhase.phases.map Phase.name =
      ["all", "download-certs", "certs", "kubeconfig", "manifests"]
  ∧ (NewControlPlanePreparePhase.phases.map Phase.name).Nodup :=
  ⟨rfl, by decide⟩

/-- C9: the download-certs run function, handed a valid JoinData whose
ControlPlane section is present but whose certificate key is empty, returns
nil (a silent skip) without loading the init configuration, building a
bootstrap client, or downloading certificates. -/
theorem downloadCerts_skip_when_no_certificateKey (env : Collaborators)
    (d : JoinData) (cp : JoinControlPlane)
    (h1 : d.cfg.controlPlane = some cp) (h2 : d.certificateKey = "") :
    runControlPlanePrepareDownloadCertsPhaseLocal env (.join d) = (none, []) := by
  simp [runControlPlanePrepareDownloadCertsPhaseLocal, h1, h2]

/-- Witness: on a concrete control-plane join context with an empty
certificate key, download-certs returns nil with an empty trace. -/
theorem downloadCerts_skip_when_no_certificateKey_witness :
    runControlPlanePrepareDownloadCertsPhaseLocal noopCollaborators
      (.join controlPlaneJoinDataNoKey) = (none, []) :=
  downloadCerts_skip_when_no_certificateKey noopCollaborators controlPlaneJoinDataNoKey
    ⟨⟨"192.168.2.2", 6443⟩⟩ rfl rfl

/-- C10: the download-certs subphase declares exactly the CfgPath and
CertificateKey flags, a strict subset of getControlPlanePreparePhaseFlags,
and the latter is exactly the declared flag list of the all aggregator and
of the certs, kubeconfig and manifests subphases. -/
theorem controlPlanePrepare_flag_inheritance :
    newControlPlanePrepareDownloadCertsSubphase.inheritFlags =
      [optionCfgPath, optionCertificateKey]
  ∧ newControlPlanePrepareDownloadCertsSubphase.inheritFlags ⊆ getControlPlanePreparePhaseFlags
  ∧ (∃ f ∈ getControlPlanePreparePhaseFlags,
      f ∉ newControlPlanePrepareDownloadCertsSubphase.inheritFlags)
  ∧ NewControlPlanePreparePhase.phases.map Phase.inheritFlags =
      [getControlPlanePreparePhaseFlags,
       [optionCfgPath, optionCertificateKey],
       getControlPlanePreparePhaseFlags,
       getControlPlanePreparePhaseFlags,
       getControlPlanePreparePhaseFlags] := by
  refine ⟨rfl, by decide, ⟨optionControlPlane, by decide, by decide⟩, rfl⟩

/-- Witness: the CfgPath flag declared by download-certs is declared by the
aggregator flag list. -/
theorem controlPlanePrepare_flag_inheritance_witness :
    optionCfgPath ∈ getControlPlanePreparePhaseFlags :=
  controlPlanePrepare_flag_inheritance.2.1 (by decide)

/-! ## Configuration loading pipeline

The implementations of LoadInitConfigurationFromFile and
MarshalInitConfigurationToBytes are not part of the analysed sources (only
their tests are), so the pipeline below is modelled from the spec: a file
is the list of documents produced by the document splitter; the kind router
converts each document through the linear version chain
(v1alpha3 to v1beta1 to internal) and merges the per-node section, the
cluster-wide section and the embedded component configs into one internal
aggregate; the defaulter fills unset optional fields with fixed defaults;
the validator collects all violations; marshalling re-emits versioned
documents. Byte identity of serialized output is modelled as equality of
the emitted document lists.
-/

/-- The v1alpha3 per-node document: the endpoint field was named
apiEndpoint in this version. -/
structure InitConfigurationV1alpha3 where
  apiEndpoint : Option APIEndpoint
  nodeRegistration : Option NodeRegistrationOptions
deriving DecidableEq

/-- The v1alpha3 cluster-wide document. -/
structure ClusterConfigurationV1alpha3 where
  kubernetesVersion : Option String
  clusterName : Option String
  controlPlaneEndpoint : Option String
deriving DecidableEq

/-- The v1beta1 per-node document: the endpoint field was renamed to
localAPIEndpoint in this version. -/
structure InitConfigurationV1beta1 where
  localAPIEndpoint : Option APIEndpoint
  nodeRegistration : Option NodeRegistrationOptions
deriving DecidableEq

/-- The v1beta1 cluster-wide document. -/
structure ClusterConfigurationV1beta1 where
  kubernetesVersion : Option String
  clusterName : Option String
  controlPlaneEndpoint : Option String
deriving DecidableEq

/-- One document of a configuration file, tagged by its declared kind and
version, as produced by the document splitter. -/
inductive Document where
  | initV1alpha3 (c : InitConfigurationV1alpha3)
  | clusterV1alpha3 (c : ClusterConfigurationV1alpha3)
  | initV1beta1 (c : InitConfigurationV1beta1)
  | clusterV1beta1 (c : ClusterConfigurationV1beta1)
  | componentConfig (componentName payload : String)
  | unknownKind (kind : String)
deriving DecidableEq

/-- Conversion step of the linear version chain: v1alpha3 per-node document
to v1beta1 (the apiEndpoint field becomes localAPIEndpoint). -/
def initConfigurationV1alpha3ToV1beta1 (c : InitConfigurationV1alpha3) :
    InitConfigurationV1beta1 :=
  ⟨c.apiEndpoint, c.nodeRegistration⟩

/-- Conversion step of the linear version chain: v1alpha3 cluster-wide
document to v1beta1. -/
def clusterConfigurationV1alpha3ToV1beta1 (c : ClusterConfigurationV1alpha3) :
    ClusterConfigurationV1beta1 :=
  ⟨c.kubernetesVersion, c.clusterName, c.controlPlaneEndpoint⟩

/-- Default advertise address and bind port. -/
def defaultAPIEndpoint : APIEndpoint := ⟨"1.2.3.4", 6443⟩

/-- Default node registration options. -/
def defaultNodeRegistration : NodeRegistrationOptions :=
  ⟨"node-1", "/var/run/dockershim.sock"⟩

/-- Default kubernetes version label. -/
def defaultKubernetesVersion : String := "stable-1"

/-- Default cluster name. -/
def defaultClusterName : String := "kubernetes"

/-- Default control plane endpoint (empty: not set). -/
def defaultControlPlaneEndpoint : String := ""

/-- Defaulter for the v1beta1 per-node document: fills every unset optional
field with its default. -/
def defaultInitConfigurationV1beta1 (c : InitConfigurationV1beta1) :
    InitConfigurationV1beta1 :=
  ⟨some (c.localAPIEndpoint.getD defaultAPIEndpoint),
   some (c.nodeRegistration.getD defaultNodeRegistration)⟩

/-- Defaulter for the v1beta1 cluster-wide document. -/
def defaultClusterConfigurationV1beta1 (c : ClusterConfigurationV1beta1) :
    ClusterConfigurationV1beta1 :=
  ⟨some (c.kubernetesVersion.getD defaultKubernetesVersion),
   some (c.clusterName.getD defaultClusterName),
   some (c.controlPlaneEndpoint.getD defaultControlPlaneEndpoint)⟩

/-- The sections collected by the kind router: at most one per-node
section, at most one cluster-wide section (later documents of the same
section overwrite earlier ones, as the splitter's kind-keyed map does), and
the embedded component configs in document order. -/
structure RoutedDocuments where
  init : Option InitConfigurationV1beta1
  cluster : Option ClusterConfigurationV1beta1
  components : List (String × String)
deriving DecidableEq

/-- The kind router: route every document of the file to its section,
converting older versions through the version chain; an unknown kind is
rejected, never silently ignored. -/
def routeDocuments (docs : List Document) : Except String RoutedDocuments :=
  docs.foldlM
    (fun r d =>
      match d with
      | .initV1alpha3 c =>
        .ok ⟨some (initConfigurationV1alpha3ToV1beta1 c), r.cluster, r.components⟩
      | .clusterV1alpha3 c =>
        .ok ⟨r.init, some (clusterConfigurationV1alpha3ToV1beta1 c), r.components⟩
      | .initV1beta1 c => .ok ⟨some c, r.cluster, r.components⟩
      | .clusterV1beta1 c => .ok ⟨r.init, some c, r.components⟩
      | .componentConfig n p => .ok ⟨r.init, r.cluster, r.components ++ [(n, p)]⟩
      | .unknownKind k => .error ("unknown kind: " ++ k))
    ⟨none, none, []⟩

/-- Conversion of the (defaulted) v1beta1 documents into the internal
aggregate configuration. -/
def toInternalConfiguration (i : InitConfigurationV1beta1)
    (cl : ClusterConfigurationV1beta1) (comps : List (String × String)) :
    InitConfiguration :=
  ⟨i.localAPIEndpoint.getD defaultAPIEndpoint,
   i.nodeRegistration.getD defaultNodeRegistration,
   ⟨cl.kubernetesVersion.getD defaultKubernetesVersion,
    cl.clusterName.getD defaultClusterName,
    cl.controlPlaneEndpoint.getD defaultControlPlaneEndpoint,
    comps⟩⟩

/-- The validator: a full pass collecting every violation, never stopping
at the first. -/
def validateInitConfiguration (c : InitConfiguration) : List String :=
  (if c.localAPIEndpoint.advertiseAddress = "" then
    ["localAPIEndpoint.advertiseAddress: address is required"] else [])
  ++ (if c.localAPIEndpoint.bindPort = 0 ∨ 65535 < c.localAPIEndpoint.bindPort then
    ["localAPIEndpoint.bindPort: port out of range"] else [])
  ++ (if c.nodeRegistration.name = "" then
    ["nodeRegistration.name: name is required"] else [])
  ++ (if c.clusterConfiguration.kubernetesVersion = "" then
    ["kubernetesVersion: version is required"] else [])
  ++ (if c.clusterConfiguration.clusterName = "" then
    ["clusterName: name is required"] else [])

/-- Modelled from the spec: LoadInitConfigurationFromFile. Split the file
into documents, route and convert them through the version chain, fill a
missing per-node or cluster-wide section with an empty document, apply the
defaulter, convert to the internal aggregate, and validate it, returning
either the ready internal configuration or the aggregated violations. -/
def LoadInitConfigurationFromFile (docs : List Document) :
    Except String InitConfiguration := do
  let r ← routeDocuments docs
  let initDoc := defaultInitConfigurationV1beta1 (r.init.getD ⟨none, none⟩)
  let clusterDoc := defaultClusterConfigurationV1beta1 (r.cluster.getD ⟨none, none, none⟩)
  let internal := toInternalConfiguration initDoc clusterDoc r.components
  match validateInitConfiguration internal with
  | [] => .ok internal
  | e :: errs => .error (String.intercalate "; " (e :: errs))

/-- Modelled from the spec: MarshalInitConfigurationToBytes targeting
v1beta1. Re-emits the per-node document, the cluster-wide document and the
embedded component configs as v1beta1 documents. -/
def marshalInitConfigurationToV1beta1Docs (c : InitConfiguration) : List Document :=
  Document.initV1beta1 ⟨some c.localAPIEndpoint, some c.nodeRegistration⟩ ::
  Document.clusterV1beta1
    ⟨some c.clusterConfiguration.kubernetesVersion,
     some c.clusterConfiguration.clusterName,
     some c.clusterConfiguration.controlPlaneEndpoint⟩ ::
  c.clusterConfiguration.componentConfigs.map (fun nc => .componentConfig nc.1 nc.2)

/-- One logical cluster configuration, version-independent: the semantic
content a fixture expresses, from which each historical version's rendering
is produced. -/
structure LogicalConfig where
  endpoint : APIEndpoint
  nodeReg : NodeRegistrationOptions
  kubernetesVersion : String
  clusterName : String
  controlPlaneEndpoint : String
  components : List (String × String)

/-- The v1alpha3 rendering of a logical configuration. -/
def logicalConfigToV1alpha3Docs (L : LogicalConfig) : List Document :=
  Document.initV1alpha3 ⟨some L.endpoint, some L.nodeReg⟩ ::
  Document.clusterV1alpha3
    ⟨some L.kubernetesVersion, some L.clusterName, some L.controlPlaneEndpoint⟩ ::
  L.components.map (fun nc => .componentConfig nc.1 nc.2)

/-- The v1beta1 rendering of a logical configuration. -/
def logicalConfigToV1beta1Docs (L : LogicalConfig) : List Document :=
  Document.initV1beta1 ⟨some L.endpoint, some L.nodeReg⟩ ::
  Document.clusterV1beta1
    ⟨some L.kubernetesVersion, some L.clusterName, some L.controlPlaneEndpoint⟩ ::
  L.components.map (fun nc => .componentConfig nc.1 nc.2)

/-- The logical content of the master conversion fixtures. -/
def masterLogicalConfig : LogicalConfig :=
  ⟨⟨"192.168.2.2", 6443⟩, ⟨"master-1", "/var/run/dockershim.sock"⟩,
   "v1.13.0", "kubernetes", "",
   [("kube-proxy", "proxy-config"), ("kubelet", "kubelet-config")]⟩

/-- The master v1alpha3 conversion fixture. -/
def masterV1alpha3Docs : List Document := logicalConfigToV1alpha3Docs masterLogicalConfig

/-- The master v1beta1 conversion fixture. -/
def masterV1beta1Docs : List Document := logicalConfigToV1beta1Docs masterLogicalConfig

/-- The internal configuration both master fixtures load to. -/
def masterInternalConfiguration : InitConfiguration :=
  ⟨⟨"192.168.2.2", 6443⟩, ⟨"master-1", "/var/run/dockershim.sock"⟩,
   ⟨"v1.13.0", "kubernetes", "",
    [("kube-proxy", "proxy-config"), ("kubelet", "kubelet-config")]⟩⟩

/-- C2: one logical cluster configuration, rendered once as the v1alpha3
fixture and once as the v1beta1 fixture, loads and converts to
field-for-field equal internal configurations (hence also to identical
marshalled output); in particular the two master conversion fixtures load
to the same internal configuration. -/
theorem loadInitConfiguration_cross_version_equivalence :
    (∀ L : LogicalConfig,
      LoadInitConfigurationFromFile (logicalConfigToV1alpha3Docs L) =
        LoadInitConfigurationFromFile (logicalConfigToV1beta1Docs L))
  ∧ LoadInitConfigurationFromFile masterV1alpha3Docs = .ok masterInternalConfiguration
  ∧ LoadInitConfigurationFromFile masterV1beta1Docs = .ok masterInternalConfiguration := by
  refine ⟨fun L => rfl, rfl, rfl⟩

/-- The incomplete (partially-specified) v1beta1 defaulting fixture: only
the per-node document, with its fields set and no cluster-wide document. -/
def masterIncompleteDocs : List Document :=
  [.initV1beta1 ⟨some ⟨"192.168.2.2", 6443⟩, some ⟨"master-1", "/var/run/dockershim.sock"⟩⟩]

/-- The canonical defaulted golden fixture for v1beta1: the incomplete
fixture with every unset field filled by the defaulter. -/
def masterDefaultedDocs : List Document :=
  [.initV1beta1 ⟨some ⟨"192.168.2.2", 6443⟩, some ⟨"master-1", "/var/run/dockershim.sock"⟩⟩,
   .clusterV1beta1 ⟨some "stable-1", some "kubernetes", some ""⟩]

/-- C3: decoding, defaulting, validating and re-encoding the incomplete
v1beta1 fixture yields exactly the canonical defaulted golden fixture, and
the round trip of the fully-specified master v1beta1 fixture through the
internal form reproduces the fixture itself. -/
theorem loadInitConfiguration_roundtrip_golden :
    (LoadInitConfigurationFromFile masterIncompleteDocs).map
      marshalInitConfigurationToV1beta1Docs = .ok masterDefaultedDocs
  ∧ (LoadInitConfigurationFromFile masterV1beta1Docs).map
      marshalInitConfigurationToV1beta1Docs = .ok masterV1beta1Docs :=
  ⟨rfl, rfl⟩

/-- The per-node-only v1beta1 file. -/
def initOnlyV1beta1Docs : List Document :=
  [.initV1beta1 ⟨some ⟨"192.168.2.2", 6443⟩, some ⟨"master-1", "/var/run/dockershim.sock"⟩⟩]

/-- The cluster-wide-only v1beta1 file. -/
def clusterOnlyV1beta1Docs : List Document :=
  [.clusterV1beta1 ⟨some "v1.13.0", some "kubernetes", some ""⟩]

/-- The per-node-only v1alpha3 file. -/
def initOnlyV1alpha3Docs : List Document :=
  [.initV1alpha3 ⟨some ⟨"192.168.2.2", 6443⟩, some ⟨"master-1", "/var/run/dockershim.sock"⟩⟩]

/-- The cluster-wide-only v1alpha3 file. -/
def clusterOnlyV1alpha3Docs : List Document :=
  [.clusterV1alpha3 ⟨some "v1.13.0", some "kubernetes", some ""⟩]

/-- The deliberately invalid fixture: out-of-range bind port and an empty
node name. -/
def invalidMasterDocs : List Document :=
  [.initV1alpha3 ⟨some ⟨"192.168.2.2", 0⟩, some ⟨"", "/var/run/dockershim.sock"⟩⟩]

/-- C4: loading a per-node-only file, a cluster-wide-only file, and the
concatenation of both plus two component-config documents succeeds with a
usable internal configuration, in both v1alpha3 and v1beta1, while loading
the deliberately invalid fixture fails with an error. -/
theorem loadInitConfiguration_scenarios :
    (∃ c, LoadInitConfigurationFromFile initOnlyV1beta1Docs = .ok c)
  ∧ (∃ c, LoadInitConfigurationFromFile clusterOnlyV1beta1Docs = .ok c)
  ∧ (∃ c, LoadInitConfigurationFromFile masterV1beta1Docs = .ok c)
  ∧ (∃ c, LoadInitConfigurationFromFile initOnlyV1alpha3Docs = .ok c)
  ∧ (∃ c, LoadInitConfigurationFromFile clusterOnlyV1alpha3Docs = .ok c)
  ∧ (∃ c, LoadInitConfigurationFromFile masterV1alpha3Docs = .ok c)
  ∧ (∃ e, LoadInitConfigurationFromFile invalidMasterDocs = .error e) :=
  ⟨⟨_, rfl⟩, ⟨_, rfl⟩, ⟨_, rfl⟩, ⟨_, rfl⟩, ⟨_, rfl⟩, ⟨_, rfl⟩, ⟨_, rfl⟩⟩
